import Mathlib

/-!
Shallow embedding of django-published (the gatekeeper visibility library).

Source files embedded:
  * src/published/utils.py   — can_object_page_be_shown, can_object_page_be_shown_to_pubilc
  * src/published/mixins.py  — PublishedListMixin.get_queryset
  * src/published/models.py  — PublishedAbstractModel (field defaults, clean, available_to_public)
  * src/published/admin.py   — PublishedAdmin.show_publish_status
  * src/published/constants.py — the status constants

Modelling conventions:
  * Timestamps are integers (ordered; only `<=` / `>` comparisons occur in the source).
  * A Django model instance is `Obj`: `publish_status : Int` (an IntegerField, so any
    integer can be stored), `live_as_of : Option Int` (a nullable DateTimeField), and
    `treat_as_standalone : Option Int` — `none` models the ATTRIBUTE BEING ABSENT from
    the object (PublishedAbstractModel declares no such field, so the Python attribute
    access raises AttributeError), `some v` models an object of a host model that does
    declare the field with value `v`.
  * The viewer is `Option User`: `none` is Python `None` (accessing `None.is_staff`
    raises AttributeError); `some u` is a user object carrying `is_staff` and
    `is_authenticated` flags (Django's AnonymousUser is `some ⟨false, false⟩`).
  * Both utils.can_object_page_be_shown and mixins.get_queryset call
    `datetime.now(pytz.utc)` internally; the `now : Int` parameter of the embeddings
    is the value that internal clock sample returns during the call.
  * Python exceptions raised and caught inside the source are modelled with
    `Except PyExc`; `can_object_page_be_shown` is typed `Except PyExc Bool` so that
    "never raises" is a statable property.
-/

/-- A Python exception relevant to the embedded code: the AttributeError raised by
`None.is_staff` or by accessing the absent `treat_as_standalone` attribute. -/
inductive PyExc where
  | attributeError
deriving DecidableEq, Repr

/-- The viewer-relevant attributes of a Django user object: `is_staff` (read by
utils.can_object_page_be_shown) and `is_authenticated` (read by
mixins.PublishedListMixin.get_queryset). -/
structure User where
  is_staff : Bool
  is_authenticated : Bool
deriving DecidableEq, Repr

/-- The gatekeeper-relevant attributes of a content record (models.py
PublishedAbstractModel plus the legacy `treat_as_standalone` attribute that
utils.py line 67 probes; `none` there means the attribute is absent). -/
structure Obj where
  publish_status : Int
  live_as_of : Option Int
  treat_as_standalone : Option Int
deriving DecidableEq, Repr

/-- constants.py: NEVER_AVAILABLE = -1. -/
def NEVER_AVAILABLE : Int := -1

/-- constants.py: AVAILABLE_AFTER = 0. -/
def AVAILABLE_AFTER : Int := 0

/-- constants.py: AVAILABLE = 1. -/
def AVAILABLE : Int := 1

/-- Python attribute access `user.is_staff` (utils.py line 66): raises
AttributeError when `user` is `None`. -/
def user_is_staff : Option User → Except PyExc Bool
  | none => .error .attributeError
  | some u => .ok u.is_staff

/-- Python attribute access `this_object.treat_as_standalone` (utils.py line 67):
raises AttributeError when the object has no such attribute. -/
def obj_standalone (o : Obj) : Except PyExc Int :=
  match o.treat_as_standalone with
  | none => .error .attributeError
  | some v => .ok v

/-- The body of the `try` block of utils.can_object_page_be_shown (lines 65-68):

    if user.is_staff:
        if this_object.publish_status >= 0 or this_object.treat_as_standalone == 1:
            return True

Result `.ok true` means the `return True` was reached; `.ok false` means the block
fell through without returning; `.error e` means an exception escaped the block
(to be caught by the `except Exception: pass` on lines 69-70). Python's `or`
short-circuits: `treat_as_standalone` is only accessed when `publish_status < 0`. -/
def staff_block (user : Option User) (o : Obj) : Except PyExc Bool :=
  match user_is_staff user with
  | .error e => .error e
  | .ok staff =>
    if staff then
      if 0 ≤ o.publish_status then
        .ok true
      else
        match obj_standalone o with
        | .error e => .error e
        | .ok ts => .ok (ts = 1)
    else
      .ok false

/-- utils.can_object_page_be_shown lines 72-92, the part after the try/except
(the "public" rules). Line 75's `if not this_object: return False` never fires for
a model instance (Django model instances define no __bool__/__len__, so they are
always truthy), hence it is not represented as a branch. `now` is the value
`datetime.now(pytz.utc)` returns at line 84. -/
def publicDecision (o : Obj) (now : Int) : Bool :=
  if o.publish_status = 1 then
    true
  else if o.publish_status < 0 then
    false
  else if o.publish_status = 0 then
    match o.live_as_of with
    | some t =>
      -- delta = this_object.live_as_of <= now; if not delta: return False
      -- otherwise control falls through to the final `return True` (line 92)
      if ¬ (t ≤ now) then false else true
    | none => false
  else
    -- publish_status is 2 or more: every branch is skipped and line 92 returns True
    true

/-- utils.can_object_page_be_shown (lines 49-92). The try/except swallows any
exception of the staff block and continues with the public rules; `.ok true` from
the staff block is the early `return True`. The overall type `Except PyExc Bool`
records whether an exception escapes the whole function (for record inputs none
can, which is claim C9's content). -/
def can_object_page_be_shown (user : Option User) (o : Obj) (now : Int) :
    Except PyExc Bool :=
  match staff_block user o with
  | .ok true => .ok true
  | .ok false => .ok (publicDecision o now)
  | .error _ => .ok (publicDecision o now)

/-- utils.py lines 95-96: can_object_page_be_shown_to_pubilc (sic) delegates to
can_object_page_be_shown with user = None. -/
def can_object_page_be_shown_to_pubilc (o : Obj) (now : Int) : Except PyExc Bool :=
  can_object_page_be_shown none o now

/-- models.py lines 39-45: the available_to_public property delegates to
can_object_page_be_shown_to_pubilc. -/
def available_to_public (o : Obj) (now : Int) : Except PyExc Bool :=
  can_object_page_be_shown_to_pubilc o now

/-- The SQL predicate `live_as_of__gt=now` of mixins.py line 27 under Django/SQL
NULL semantics: a row whose live_as_of is NULL never matches a `__gt` lookup. -/
def live_gt (l : Option Int) (now : Int) : Bool :=
  match l with
  | some t => now < t
  | none => false

/-- mixins.PublishedListMixin.get_queryset (mixins.py lines 17-29): when the
requesting user is not authenticated, exclude rows with
publish_status = NEVER_AVAILABLE, then exclude rows matching
Q(publish_status = AVAILABLE_AFTER) & Q(live_as_of__gt = now); an authenticated
user gets the unfiltered queryset. `now` is the value `datetime.now(pytz.utc)`
returns inside the call; `qs` is the queryset as an ordered list of rows. -/
def get_queryset (u : User) (qs : List Obj) (now : Int) : List Obj :=
  if ¬ u.is_authenticated then
    let qs1 := qs.filter (fun o => ¬ (o.publish_status = NEVER_AVAILABLE))
    qs1.filter (fun o =>
      ¬ (o.publish_status = AVAILABLE_AFTER ∧ live_gt o.live_as_of now))
  else
    qs

/-- models.py validation error (clean raises ValidationError with message
"No date has been set!" keyed on publish_status). -/
inductive ValidationError where
  | noDateSet
deriving DecidableEq, Repr

/-- models.PublishedAbstractModel.clean (models.py lines 35-37): raise exactly when
publish_status == AVAILABLE_AFTER and live_as_of is None. -/
def clean (o : Obj) : Except ValidationError Unit :=
  if o.publish_status = AVAILABLE_AFTER ∧ o.live_as_of = none then
    .error .noDateSet
  else
    .ok ()

/-- A record created without the caller setting the gatekeeper fields: models.py
gives publish_status default=1 and live_as_of null=True (so NULL), and the model
declares no treat_as_standalone attribute. -/
def newRecord : Obj :=
  { publish_status := 1, live_as_of := none, treat_as_standalone := none }

/-- The date rendering `live_as_of.strftime("%x")` of admin.py line 48, modelled
as an injective rendering of the timestamp. -/
def dateStr (t : Int) : String :=
  toString t

/-- admin.PublishedAdmin.show_publish_status (admin.py lines 33-52): the
human-facing status string (mark_safe HTML kept verbatim). `now` is the value
`timezone.now()` returns at line 47. -/
def show_publish_status (o : Obj) (now : Int) : String :=
  if o.publish_status = AVAILABLE then
    "<strong>Available</strong>"
  else if o.publish_status = NEVER_AVAILABLE then
    "<strong>Never Available</strong>"
  else
    match o.live_as_of with
    | none => "N/A"
    | some t =>
      if now < t then
        "<strong>Available After: " ++ dateStr t ++ "</strong>"
      else
        "<strong>Available</strong>"

/-! ## Helper lemmas -/

/-- Helper: a negative publish_status is never publicly visible. -/
lemma publicDecision_neg (ps : Int) (l ts : Option Int) (now : Int) (h : ps < 0) :
    publicDecision ⟨ps, l, ts⟩ now = false := by
  unfold publicDecision
  dsimp only
  rw [if_neg (by omega), if_pos h]

/-- Helper: for publish_status = 0 with a set date, the public verdict is exactly
the comparison live_as_of <= now. -/
lemma publicDecision_zero (T now : Int) (ts : Option Int) :
    publicDecision ⟨0, some T, ts⟩ now = decide (T ≤ now) := by
  unfold publicDecision
  by_cases h : T ≤ now <;> simp [h]

/-- Helper: characterisation of the public verdict as a proposition. -/
lemma publicDecision_iff (ps : Int) (l ts : Option Int) (now : Int) :
    publicDecision ⟨ps, l, ts⟩ now = true ↔
      (1 ≤ ps ∨ (ps = 0 ∧ ∃ t, l = some t ∧ t ≤ now)) := by
  unfold publicDecision
  rcases l with _ | t
  · split_ifs with h1 h2 h3 <;> simp_all <;> omega
  · split_ifs with h1 h2 h3 <;> simp_all <;> omega

/-- Helper: for a non-staff authenticated or anonymous user object the staff block
falls through, so the decision is the public verdict. -/
lemma can_shown_nonstaff (b : Bool) (o : Obj) (now : Int) :
    can_object_page_be_shown (some ⟨false, b⟩) o now = .ok (publicDecision o now) := rfl

/-- Helper: with user = None the attribute error is swallowed and the decision is
the public verdict. -/
lemma can_shown_none (o : Obj) (now : Int) :
    can_object_page_be_shown none o now = .ok (publicDecision o now) := rfl

/-! ## Claim C1 — filter/decision equivalence -/

/-- C1 counterexample: the claimed equivalence between
PublishedListMixin.get_queryset and can_object_page_be_shown fails at concrete
inputs. An anonymous viewer keeps an AvailableAfter record with null live_as_of
in the list output (the SQL exclude with live_as_of__gt does not match NULL)
although the single-object decision returns false for it; and an authenticated
non-staff viewer keeps a NeverAvailable record in the list output (the list
bypass keys on is_authenticated, not is_staff) although the single-object
decision returns false for it. -/
theorem C1_filter_decision_equivalence_cex :
    get_queryset ⟨false, false⟩ [⟨0, none, none⟩] 5 = [⟨0, none, none⟩] ∧
    can_object_page_be_shown (some ⟨false, false⟩) ⟨0, none, none⟩ 5 = .ok false ∧
    get_queryset ⟨false, true⟩ [⟨-1, none, none⟩] 5 = [⟨-1, none, none⟩] ∧
    can_object_page_be_shown (some ⟨false, true⟩) ⟨-1, none, none⟩ 5 = .ok false :=
  ⟨rfl, rfl, rfl, rfl⟩

/-- C1 (amended): over the three valid publish_status variants, for an anonymous
viewer a record appears in the output of PublishedListMixin.get_queryset iff
can_object_page_be_shown returns true for it OR the record is AvailableAfter with
null live_as_of (which the list filter retains although the single-object
decision rejects it); and any authenticated viewer, staff or not, bypasses the
list filter entirely. -/
theorem C1_filter_decision_equivalence_amended (qs : List Obj) (now : Int) (r : Obj)
    (h : r.publish_status = NEVER_AVAILABLE ∨ r.publish_status = AVAILABLE_AFTER ∨
      r.publish_status = AVAILABLE) :
    (r ∈ get_queryset ⟨false, false⟩ qs now ↔
      r ∈ qs ∧ (can_object_page_be_shown (some ⟨false, false⟩) r now = .ok true ∨
        (r.publish_status = AVAILABLE_AFTER ∧ r.live_as_of = none))) ∧
    (∀ s : Bool, get_queryset ⟨s, true⟩ qs now = qs) := by
  constructor
  · have hq : get_queryset ⟨false, false⟩ qs now =
        (qs.filter fun o => ¬ (o.publish_status = NEVER_AVAILABLE)).filter
          (fun o => ¬ (o.publish_status = AVAILABLE_AFTER ∧ live_gt o.live_as_of now)) :=
      rfl
    rw [hq, can_shown_nonstaff]
    rcases r with ⟨ps, l, ts⟩
    simp only [List.mem_filter, decide_eq_true_eq, Except.ok.injEq, publicDecision_iff,
      NEVER_AVAILABLE, AVAILABLE_AFTER, AVAILABLE] at *
    rcases h with h | h | h <;> subst h <;> rcases l with _ | t <;>
      simp [live_gt, not_lt]
  · intro s
    rfl

/-- C1 witness: the amended equivalence applied to the one-element list holding
the AvailableAfter record with null live_as_of: it appears in the filter
output. -/
theorem C1_filter_decision_equivalence_w :
    (⟨0, none, none⟩ : Obj) ∈ get_queryset ⟨false, false⟩ [⟨0, none, none⟩] 5 := by
  have h := C1_filter_decision_equivalence_amended [⟨0, none, none⟩] 5 ⟨0, none, none⟩
    (Or.inr (Or.inl rfl))
  exact h.1.mpr ⟨List.mem_singleton_self _, Or.inr ⟨rfl, rfl⟩⟩

/-! ## Claim C2 — privilege override -/

/-- C2 counterexample: the privilege override is not unconditional. A staff
viewer is denied a NeverAvailable record (the staff branch requires
publish_status >= 0 or treat_as_standalone == 1; with neither, control falls
through to the public rules, which reject publish_status < 0). -/
theorem C2_privilege_override_cex :
    can_object_page_be_shown (some ⟨true, true⟩) ⟨-1, none, none⟩ 0 = .ok false := rfl

/-- C2 (amended): for every staff viewer, can_object_page_be_shown returns true
exactly when publish_status >= 0 or the record carries treat_as_standalone == 1;
in particular NeverAvailable records without the standalone flag are denied even
to staff. -/
theorem C2_privilege_override_amended (u : User) (o : Obj) (now : Int)
    (h : u.is_staff = true) :
    can_object_page_be_shown (some u) o now = .ok true ↔
      (0 ≤ o.publish_status ∨ o.treat_as_standalone = some 1) := by
  rcases o with ⟨ps, l, ts⟩
  simp only [can_object_page_be_shown, staff_block, user_is_staff, obj_standalone, h]
  by_cases hp : (0 : Int) ≤ ps
  · simp [hp]
  · rcases ts with _ | k
    · simp [hp, publicDecision_neg ps l none now (by omega)]
    · by_cases hk : k = 1
      · simp [hp, hk]
      · simp [hp, hk, publicDecision_neg ps l (some k) now (by omega)]

/-- C2 witness: the amended characterisation applied to a staff viewer and an
Available record. -/
theorem C2_privilege_override_w :
    can_object_page_be_shown (some ⟨true, true⟩) ⟨1, none, none⟩ 0 = .ok true :=
  (C2_privilege_override_amended ⟨true, true⟩ ⟨1, none, none⟩ 0 rfl).mpr
    (Or.inl (by decide))

/-! ## Claim C3 — invalid publication states -/

/-- C3 counterexample: an out-of-range publish_status does not fail; at
publish_status = 2 the decision falls through every branch and returns the
verdict true. -/
theorem C3_invalid_state_cex :
    can_object_page_be_shown none ⟨2, none, none⟩ 0 = .ok true := rfl

/-- C3 (amended): for every publish_status outside the three valid variants the
decision raises nothing and returns a visibility verdict: true when
publish_status > 1 (every branch is skipped and the final return True is
reached), false when publish_status < -1 (the negative-status branch). -/
theorem C3_invalid_state_amended (s : Int) (l ts : Option Int) (now : Int)
    (h : s ≠ NEVER_AVAILABLE ∧ s ≠ AVAILABLE_AFTER ∧ s ≠ AVAILABLE) :
    can_object_page_be_shown none ⟨s, l, ts⟩ now = .ok (decide (1 < s)) := by
  rw [can_shown_none]
  rcases h with ⟨h1, h2, h3⟩
  simp only [NEVER_AVAILABLE, AVAILABLE_AFTER, AVAILABLE] at h1 h2 h3
  by_cases hs : 1 < s
  · have hv : publicDecision ⟨s, l, ts⟩ now = true := by
      rw [publicDecision_iff]
      left
      omega
    simp [hv, hs]
  · have hv : publicDecision ⟨s, l, ts⟩ now = false :=
      publicDecision_neg s l ts now (by omega)
    simp [hv, hs]

/-- C3 witness: the amended statement applied at publish_status = 2. -/
theorem C3_invalid_state_w :
    can_object_page_be_shown none ⟨2, none, none⟩ 99 = .ok (decide ((1 : Int) < 2)) :=
  C3_invalid_state_amended 2 none none 99 ⟨by decide, by decide, by decide⟩

/-! ## Claim C4 — step-function monotonicity -/

/-- C4: for an AvailableAfter record with live_as_of = T and an unprivileged
(anonymous or non-staff) viewer, the decision is the step function of T: false
for now < T, true for now >= T — stated as the verdict being exactly the
comparison T <= now, both for user = None and for every non-staff user object. -/
theorem C4_step_monotonicity (T now : Int) (ts : Option Int) :
    can_object_page_be_shown none ⟨AVAILABLE_AFTER, some T, ts⟩ now
        = .ok (decide (T ≤ now)) ∧
    ∀ b : Bool,
      can_object_page_be_shown (some ⟨false, b⟩) ⟨AVAILABLE_AFTER, some T, ts⟩ now
        = .ok (decide (T ≤ now)) := by
  constructor
  · rw [can_shown_none]
    simp only [AVAILABLE_AFTER]
    rw [publicDecision_zero]
  · intro b
    rw [can_shown_nonstaff]
    simp only [AVAILABLE_AFTER]
    rw [publicDecision_zero]

/-! ## Claim C5 — validation contract -/

/-- C5: models.PublishedAbstractModel.clean fails (with the "No date has been
set!" validation error) exactly when publish_status = AVAILABLE_AFTER and
live_as_of is null, and succeeds for every other combination of the two
fields. -/
theorem C5_validation_contract (o : Obj) :
    (clean o = .error .noDateSet ↔
      (o.publish_status = AVAILABLE_AFTER ∧ o.live_as_of = none)) ∧
    (clean o = .ok () ↔
      ¬ (o.publish_status = AVAILABLE_AFTER ∧ o.live_as_of = none)) := by
  unfold clean
  split_ifs with h <;> simp [h]

/-! ## Claim C6 — internal clock -/

/-- C6 counterexample: the verdict is not determined by the source functions'
explicit arguments alone. can_object_page_be_shown takes only (user, this_object)
and samples datetime.now internally (utils.py line 84), as does get_queryset
(mixins.py line 27): two calls with the identical explicit arguments give
different results when the internal clock sample differs. -/
theorem C6_no_internal_clock_cex :
    can_object_page_be_shown none ⟨0, some 5, none⟩ 3 = .ok false ∧
    can_object_page_be_shown none ⟨0, some 5, none⟩ 7 = .ok true ∧
    get_queryset ⟨false, false⟩ [⟨0, some 5, none⟩] 3 = [] ∧
    get_queryset ⟨false, false⟩ [⟨0, some 5, none⟩] 7 = [⟨0, some 5, none⟩] :=
  ⟨rfl, rfl, rfl, rfl⟩

/-- C6 (amended): both paths sample the system clock internally, so the verdict
is a pure function of (viewer, state, sampled clock value) rather than of the
explicit arguments alone; the dependence on the clock sample is confined to
AvailableAfter records with a non-null live_as_of — for every other state the
single-object verdict is the same whatever the clock reads. -/
theorem C6_clock_dependence_confined (u : Option User) (o : Obj) (n1 n2 : Int)
    (h : o.publish_status ≠ AVAILABLE_AFTER ∨ o.live_as_of = none) :
    can_object_page_be_shown u o n1 = can_object_page_be_shown u o n2 := by
  have hp : publicDecision o n1 = publicDecision o n2 := by
    rcases o with ⟨ps, l, ts⟩
    rcases l with _ | t
    · rfl
    · simp only [AVAILABLE_AFTER] at h
      rcases h with h | h
      · unfold publicDecision
        dsimp only
        split_ifs <;> simp_all
      · simp at h
  unfold can_object_page_be_shown
  rw [hp]

/-- C6 witness: the amended clock-independence applied to an Available record. -/
theorem C6_clock_dependence_confined_w :
    can_object_page_be_shown none ⟨1, none, none⟩ 0
      = can_object_page_be_shown none ⟨1, none, none⟩ 999 :=
  C6_clock_dependence_confined none ⟨1, none, none⟩ 0 999 (Or.inl (by decide))

/-! ## Claim C7 — status-to-label mapping -/

/-- C7 counterexample: an AvailableAfter record with null live_as_of is labelled
"N/A" by PublishedAdmin.show_publish_status, not "Available" as claimed. -/
theorem C7_status_label_cex :
    show_publish_status ⟨AVAILABLE_AFTER, none, none⟩ 0 = "N/A" ∧
    "N/A" ≠ "Available" ∧ "N/A" ≠ "<strong>Available</strong>" :=
  ⟨rfl, by decide, by decide⟩

/-- C7 (amended): the label function maps Available to "Available",
NeverAvailable to "Never Available", AvailableAfter with a past live_as_of to
"Available", AvailableAfter with a future live_as_of to
"Available After: date", and AvailableAfter with null live_as_of to "N/A"
(labels carry the strong-tag markup the source emits through mark_safe). -/
theorem C7_status_label_amended (l ts : Option Int) (now t : Int) :
    show_publish_status ⟨AVAILABLE, l, ts⟩ now = "<strong>Available</strong>" ∧
    show_publish_status ⟨NEVER_AVAILABLE, l, ts⟩ now
        = "<strong>Never Available</strong>" ∧
    show_publish_status ⟨AVAILABLE_AFTER, none, ts⟩ now = "N/A" ∧
    (t ≤ now → show_publish_status ⟨AVAILABLE_AFTER, some t, ts⟩ now
        = "<strong>Available</strong>") ∧
    (now < t → show_publish_status ⟨AVAILABLE_AFTER, some t, ts⟩ now
        = "<strong>Available After: " ++ dateStr t ++ "</strong>") := by
  have key : show_publish_status ⟨AVAILABLE_AFTER, some t, ts⟩ now =
      if now < t then "<strong>Available After: " ++ dateStr t ++ "</strong>"
      else "<strong>Available</strong>" := rfl
  refine ⟨rfl, rfl, rfl, fun h => ?_, fun h => ?_⟩
  · rw [key, if_neg (not_lt.mpr h)]
  · rw [key, if_pos h]

/-- C7 witness: the amended mapping applied to an AvailableAfter record whose
date is in the past. -/
theorem C7_status_label_w :
    show_publish_status ⟨AVAILABLE_AFTER, some 3, none⟩ 5 = "<strong>Available</strong>" :=
  (C7_status_label_amended none none 5 3).2.2.2.1 (by decide)

/-! ## Claim C8 — default lifecycle state -/

/-- C8: a record created without the caller setting publish_status gets the
field default 1 (Available), and the decision shows it to every viewer — absent,
anonymous, authenticated or staff — at every time. -/
theorem C8_default_available (u : Option User) (now : Int) :
    newRecord.publish_status = AVAILABLE ∧
    can_object_page_be_shown u newRecord now = .ok true := by
  refine ⟨rfl, ?_⟩
  rcases u with _ | ⟨staff, auth⟩
  · rfl
  · cases staff <;> rfl

/-! ## Claim C9 — totality of the anonymous decision -/

/-- C9: with user = None the privilege check raises the attribute error, the
try/except swallows it, and can_object_page_be_shown — hence the
available_to_public property — returns the public verdict, an ok boolean, for
every record state; no exception escapes. -/
theorem C9_anonymous_totality (o : Obj) (now : Int) :
    staff_block none o = .error .attributeError ∧
    can_object_page_be_shown none o now = .ok (publicDecision o now) ∧
    available_to_public o now = .ok (publicDecision o now) :=
  ⟨rfl, rfl, rfl⟩

/-! ## Claim C10 — template property equivalence -/

/-- C10: the available_to_public property returns exactly the
anonymous-viewer decision: it delegates through can_object_page_be_shown_to_pubilc
to can_object_page_be_shown with user = None and adds no rules of its own. -/
theorem C10_template_property_equivalence (o : Obj) (now : Int) :
    available_to_public o now = can_object_page_be_shown_to_pubilc o now ∧
    available_to_public o now = can_object_page_be_shown none o now :=
  ⟨rfl, rfl⟩
